import Mathlib

/-!
Shallow embedding of `resources.py` (Doist/resources): a fixture/resource
lifecycle manager.  Makers are two-phase generator factories; the model
represents a factory as a pure function from arguments to the first yielded
value, and tracks the teardown resumption of a generator with a Boolean flag.
Mutable dictionaries become functions `String → Option _`, the module set
becomes `String → Bool`, and methods become state-passing functions.  Methods
that can raise return `Except` paired with the post-state (the pre-state when
the raise happens before any mutation, as in the source).
-/

namespace Resources

/-- A finite-map view of a Python dict keyed by strings. -/
abbrev Registry (V : Type) := String → Option V

/-- Point update of a dict: `d[k] = v` when `v = some _`, `d.pop(k, None)` when
`v = none`. -/
def update {β : Type} (f : Registry β) (k : String) (v : Option β) : Registry β :=
  fun n => if n = k then v else f n

/-- Python's `str.endswith`, as the suffix relation on the character
sequences of the two strings. -/
def strEndsWith (s suffix : String) : Bool :=
  suffix.data.isSuffixOf s.data

/-- Point update of a set of strings (`add` / `remove` on `self._modules`). -/
def setMod (f : String → Bool) (k : String) (b : Bool) : String → Bool :=
  fun n => if n = k then b else f n

/-- One entry of the global `_resource_makers` dict: the factory function
(`value['func']`) together with its `__module__`.  The generator body is
abstracted as the pure function from call arguments to the first yielded
value; teardown effects beyond resumption are out of scope. -/
structure MakerEntry (α V : Type) where
  func : α → V
  module : String

/-- A generator instance that has been advanced to its first suspension:
`value` is what the first `next(generator)` returned, `finished` records
whether `next(generator, None)` has resumed it past the yield (teardown ran). -/
structure Gen (V : Type) where
  value : V
  finished : Bool
deriving DecidableEq

/-- `ResourceManager`: `resource_id`, the captured `resource_maker`, and the
`generators` dict mapping instance name to the pending generator.  The
back-reference to the collection manager is replaced by passing the value
registry to `start`/`stop` explicitly. -/
structure MgrState (α V : Type) where
  resourceId : String
  maker : α → V
  generators : Registry (Gen V)

/-- Errors raised as `RuntimeError` by the source, named after the spec's
taxonomy (`UnknownResource`, `AlreadyStarted`, `NotStarted`). -/
inductive RErr where
  | unknownResource (resourceId : String)
  | alreadyStarted (name : String)
  | notStarted (name : String)
deriving DecidableEq

/-- The cause carried by a facade lookup failure: a `RuntimeError` re-raised
by `__getattr__`, or the `KeyError` of a plain registry lookup. -/
inductive LookupErr where
  | runtime (e : RErr)
  | keyErr (name : String)
deriving DecidableEq

/-- `AttributeError(str(e))` as raised by `__getattr__`. -/
inductive AttrFail where
  | attributeError (cause : LookupErr)
deriving DecidableEq

/-- `KeyError(str(e))` as raised by `__getitem__`. -/
inductive ItemFail where
  | keyError (cause : LookupErr)
deriving DecidableEq

/-- The underlying cause of an attribute failure. -/
def AttrFail.cause : AttrFail → LookupErr
  | .attributeError c => c

/-- The underlying cause of a key failure. -/
def ItemFail.cause : ItemFail → LookupErr
  | .keyError c => c

/-- `ResourceCollectionManager` state plus the global `_resource_makers`
dict (kept as a field; no claim exercises its sharing between collection
managers): `makers` per resource id, `modules` the registered module set,
`registry` the `_resource_registry` of live values, `managers` the
`_resource_managers` cache of singleton managers. -/
structure RCMState (α V : Type) where
  makers : String → Option (MakerEntry α V)
  modules : String → Bool
  registry : Registry V
  managers : String → Option (MgrState α V)

/-- `register_func`: upsert `_resource_makers[func.__name__] = {'func': func}`.
The function's `__name__` and `__module__` are passed as data. -/
def RCMState.registerFunc {α V : Type} (s : RCMState α V) (funcName modName : String)
    (f : α → V) : RCMState α V :=
  { s with makers := update s.makers funcName (some ⟨f, modName⟩) }

/-- `register_mod`: add the module name to `self._modules` (the `__import__`
side effect only triggers registration decorators and is out of scope). -/
def RCMState.registerMod {α V : Type} (s : RCMState α V) (m : String) : RCMState α V :=
  { s with modules := setMod s.modules m true }

/-- `unregister_mod`: remove the module name from `self._modules`. -/
def RCMState.unregisterMod {α V : Type} (s : RCMState α V) (m : String) : RCMState α V :=
  { s with modules := setMod s.modules m false }

/-- Membership of a resource id in `_active_resource_makers()`: the maker is
registered and its factory's `__module__` is in `self._modules`. -/
def RCMState.isActive {α V : Type} (s : RCMState α V) (rid : String) : Bool :=
  match s.makers rid with
  | some e => s.modules e.module
  | none => false

/-- What the `DecoratorAndContextManager` class closes over: the stripped
resource id (default instance name) and the captured `resource_maker`. -/
structure CtxClass (α V : Type) where
  resourceId : String
  maker : α → V

/-- `_get_decorator_and_context_manager`: raise `RuntimeError` when the id is
not active, otherwise build the class around `_resource_makers[id]['func']`
(the `none` inner branch is unreachable because activity implies presence). -/
def RCMState.getCtx {α V : Type} (s : RCMState α V) (rid : String) :
    Except RErr (CtxClass α V) :=
  if s.isActive rid then
    match s.makers rid with
    | some e => .ok ⟨rid, e.func⟩
    | none => .error (.unknownResource rid)
  else .error (.unknownResource rid)

/-- `_get_manager`: return the cached singleton when present; otherwise raise
`RuntimeError` when the id is not active; otherwise construct a fresh
`ResourceManager` with an empty generators dict and cache it. -/
def RCMState.getManager {α V : Type} (s : RCMState α V) (rid : String) :
    Except RErr (MgrState α V) × RCMState α V :=
  match s.managers rid with
  | some m => (.ok m, s)
  | none =>
    if s.isActive rid then
      match s.makers rid with
      | some e =>
        let m : MgrState α V := ⟨rid, e.func, fun _ => none⟩
        (.ok m, { s with managers := update s.managers rid (some m) })
      | none => (.error (.unknownResource rid), s)
    else (.error (.unknownResource rid), s)

/-- An instance of `DecoratorAndContextManager`: `__init__` pops the reserved
`_name` keyword (default the resource id) and stores the remaining call
arguments; `generator` is set by `__enter__`. -/
structure CtxInstance (α V : Type) where
  maker : α → V
  name : String
  args : α
  generator : Option (Gen V)

/-- `DecoratorAndContextManager(*args, _name=...)`. -/
def mkCtxInstance {α V : Type} (k : CtxClass α V) (args : α) (nameOv : Option String) :
    CtxInstance α V :=
  { maker := k.maker, name := nameOv.getD k.resourceId, args := args, generator := none }

/-- `__enter__`: call the factory, advance it to its first suspension to get
the resource, store the resource in the value registry under `mgr.name`, and
return the resource. -/
def CtxInstance.enter {α V : Type} (c : CtxInstance α V) (reg : Registry V) :
    CtxInstance α V × V × Registry V :=
  let v := c.maker c.args
  ({ c with generator := some ⟨v, false⟩ }, v, update reg c.name (some v))

/-- Mark the held generator as resumed past its yield (`next(generator, None)`). -/
def Gen.finish {V : Type} (g : Gen V) : Gen V :=
  { g with finished := true }

/-- The context-manager protocol calls this on every path out of `__exit__`:
resume the generator (teardown) and `pop` the name from the value registry. -/
def CtxInstance.exitScope {α V : Type} (c : CtxInstance α V) (reg : Registry V) :
    CtxInstance α V × Registry V :=
  ({ c with generator := c.generator.map Gen.finish }, update reg c.name none)

/-- Whether the instance's generator has been resumed past its yield. -/
def CtxInstance.teardownResumed {α V : Type} (c : CtxInstance α V) : Bool :=
  match c.generator with
  | some g => g.finished
  | none => false

/-- The `with` statement around a scoped acquisition: `__enter__`, then the
body (which may finish with a value or an exception, threading the value
registry either way), then `__exit__` — which Python runs on both the normal
and the exceptional path, re-raising the body's exception afterwards. -/
def withCtx {α V β ε : Type} (c : CtxInstance α V) (reg : Registry V)
    (body : V → Registry V → Except ε β × Registry V) :
    Except ε β × CtxInstance α V × Registry V :=
  let (c1, v, r1) := c.enter reg
  let (res, r2) := body v r1
  let (c2, r3) := c1.exitScope r2
  (res, c2, r3)

/-- The `wrapper` built by `__call__` when the instance is used as a
decorator: make a fresh generator, advance it to the first yield, store the
resource under `deco.name`, call the wrapped callable with the resource
prepended to the arguments, and only on normal return resume the generator
and pop the name (the source has no `try`/`finally`, so an exception from
the callable propagates before `next(generator, None)` and the `pop` run).
The middle component reports whether the teardown resumption happened. -/
def decoratedCall {α V β γ ε : Type} (c : CtxInstance α V)
    (callable : V → γ → Registry V → Except ε β × Registry V)
    (args : γ) (reg : Registry V) : Except ε β × Bool × Registry V :=
  let v := c.maker c.args
  let r1 := update reg c.name (some v)
  match callable v args r1 with
  | (.ok ret, r2) => (.ok ret, true, update r2 c.name none)
  | (.error e, r2) => (.error e, false, r2)

/-- Plain lookup, the final branch of `__getattr__`: read
`self._resource_registry[item]`, turning the `KeyError` into a failure. -/
def plainLookup {V : Type} (reg : Registry V) (item : String) : Except LookupErr V :=
  match reg item with
  | some v => .ok v
  | none => .error (.keyErr item)

/-- The result of a facade lookup: a `DecoratorAndContextManager` class, a
`ResourceManager` singleton, or a plain registry value. -/
inductive Attr (α V : Type) where
  | ctxAccessor (k : CtxClass α V)
  | mgrAccessor (m : MgrState α V)
  | plainValue (v : V)

/-- `__getattr__`: names ending in `_ctx` resolve through
`_get_decorator_and_context_manager` on the stripped id, names ending in
`_mgr` through `_get_manager` (which may cache a new singleton, hence the
returned state), anything else through the plain registry lookup; every
failure is re-raised as `AttributeError`. -/
def RCMState.getattr {α V : Type} (s : RCMState α V) (item : String) :
    Except AttrFail (Attr α V) × RCMState α V :=
  if strEndsWith item "_ctx" then
    match s.getCtx (item.dropRight 4) with
    | .ok k => (.ok (.ctxAccessor k), s)
    | .error e => (.error (.attributeError (.runtime e)), s)
  else if strEndsWith item "_mgr" then
    match s.getManager (item.dropRight 4) with
    | (.ok m, s') => (.ok (.mgrAccessor m), s')
    | (.error e, s') => (.error (.attributeError (.runtime e)), s')
  else
    match plainLookup s.registry item with
    | .ok v => (.ok (.plainValue v), s)
    | .error e => (.error (.attributeError e), s)

/-- `__getitem__`: delegate to `getattr` and re-raise its `AttributeError`
as `KeyError`. -/
def RCMState.getitem {α V : Type} (s : RCMState α V) (item : String) :
    Except ItemFail (Attr α V) × RCMState α V :=
  match s.getattr item with
  | (.ok a, s') => (.ok a, s')
  | (.error (.attributeError c), s') => (.error (.keyError c), s')

/-- `ResourceManager.start`: pop the reserved `_name` keyword (default the
resource id; an explicit `_name=''` keeps the empty string), raise
`AlreadyStarted` when the name is already in the value registry, otherwise
make a fresh generator, advance it to the first yield, record the pending
generator under the name and the resource in the value registry. -/
def MgrState.start {α V : Type} (m : MgrState α V) (args : α) (nameOv : Option String)
    (reg : Registry V) : Except RErr V × MgrState α V × Registry V :=
  let name := nameOv.getD m.resourceId
  if (reg name).isSome then (.error (.alreadyStarted name), m, reg)
  else
    let v := m.maker args
    (.ok v,
     { m with generators := update m.generators name (some ⟨v, false⟩) },
     update reg name (some v))

/-- The name targeted by `ResourceManager.stop`: `_name or self.resource_id`,
so both `None` and the (falsy) empty string fall back to the resource id. -/
def stopCoalesce (resourceId : String) (nameOv : Option String) : String :=
  match nameOv with
  | none => resourceId
  | some n => if n = "" then resourceId else n

/-- `ResourceManager.stop`: coalesce the name with `_name or self.resource_id`,
raise `NotStarted` when no generator is recorded under the name, otherwise
resume the generator (teardown) and pop the name from both the generators
dict and the value registry. -/
def MgrState.stop {α V : Type} (m : MgrState α V) (nameOv : Option String)
    (reg : Registry V) : Except RErr Unit × MgrState α V × Registry V :=
  let name := stopCoalesce m.resourceId nameOv
  match m.generators name with
  | none => (.error (.notStarted name), m, reg)
  | some _ =>
    (.ok (), { m with generators := update m.generators name none },
     update reg name none)

/-- Whether an `Except` result is a normal return rather than an exception. -/
def exOk {ε β : Type} : Except ε β → Bool
  | .ok _ => true
  | .error _ => false

/-- Error-payload map, used to compare the two facade error conventions. -/
def mapFail {ε ε' β : Type} (f : ε → ε') : Except ε β → Except ε' β
  | .ok a => .ok a
  | .error e => .error (f e)

/-- A concrete maker entry (factory `fun a => a + 1` from module `m`) for
concrete instantiations. -/
def succEntry : MakerEntry Nat Nat := ⟨fun a => a + 1, "m"⟩

/-- A concrete collection-manager state with the single active maker `user`. -/
def sW : RCMState Nat Nat :=
  { makers := fun n => if n = "user" then some succEntry else none
    modules := fun n => n == "m"
    registry := fun _ => none
    managers := fun _ => none }

/-- A concrete decorator/context-manager instance for `user` with argument 6. -/
def cW : CtxInstance Nat Nat :=
  { maker := fun a => a + 1, name := "user", args := 6, generator := none }

/-- A concrete `ResourceManager` for `user` with no recorded generators. -/
def mW : MgrState Nat Nat :=
  { resourceId := "user", maker := fun a => a + 1, generators := fun _ => none }

/-- The manager singleton `_get_manager` constructs for `user` on first
retrieval from `sW`. -/
def mgrW : MgrState Nat Nat := ⟨"user", succEntry.func, fun _ => none⟩

/-- `sW` after retrieving `user_mgr` (which caches the singleton) and then
unregistering module `m`. -/
def sDeact : RCMState Nat Nat :=
  ((sW.getManager "user").2).unregisterMod "m"

/-- C1: for every registered maker whose module is active, the `_ctx`
accessor yields its class; entering scoped acquisition with arguments `A`
invokes the factory on `A`, advances it to its first suspension, stores the
produced value in the value registry under the instance name (the maker id
unless overridden by the reserved `_name` keyword), returns it, and while
the scope is open a plain lookup of that name returns exactly that
first-emitted value. -/
theorem scopedEntry_firstValue {α V : Type} (s : RCMState α V) (rid : String)
    (e : MakerEntry α V) (A : α) (nameOv : Option String)
    (hreg : s.makers rid = some e) (hact : s.modules e.module = true) :
    s.getCtx rid = .ok ⟨rid, e.func⟩ ∧
    (mkCtxInstance ⟨rid, e.func⟩ A nameOv).name = nameOv.getD rid ∧
    ((mkCtxInstance ⟨rid, e.func⟩ A nameOv).enter s.registry).2.1 = e.func A ∧
    ((mkCtxInstance ⟨rid, e.func⟩ A nameOv).enter s.registry).2.2
      (mkCtxInstance ⟨rid, e.func⟩ A nameOv).name = some (e.func A) ∧
    plainLookup ((mkCtxInstance ⟨rid, e.func⟩ A nameOv).enter s.registry).2.2
      (mkCtxInstance ⟨rid, e.func⟩ A nameOv).name = .ok (e.func A) := by
  refine ⟨?_, rfl, rfl, ?_, ?_⟩
  · simp [RCMState.getCtx, RCMState.isActive, hreg, hact]
  · simp [mkCtxInstance, CtxInstance.enter, update]
  · simp [plainLookup, mkCtxInstance, CtxInstance.enter, update]

/-- Witness for C1 at the concrete state `sW`, resource `user`, argument 5,
no name override. -/
theorem scopedEntry_firstValue_witness :
    sW.getCtx "user" = .ok ⟨"user", succEntry.func⟩ ∧
    (mkCtxInstance ⟨"user", succEntry.func⟩ 5 none).name = "user" ∧
    ((mkCtxInstance ⟨"user", succEntry.func⟩ 5 none).enter sW.registry).2.1 = 6 ∧
    ((mkCtxInstance ⟨"user", succEntry.func⟩ 5 none).enter sW.registry).2.2
      (mkCtxInstance ⟨"user", succEntry.func⟩ 5 none).name = some 6 ∧
    plainLookup ((mkCtxInstance ⟨"user", succEntry.func⟩ 5 none).enter sW.registry).2.2
      (mkCtxInstance ⟨"user", succEntry.func⟩ 5 none).name = .ok 6 :=
  scopedEntry_firstValue sW "user" succEntry 5 none rfl rfl

/-- C2: for every scoped acquisition, after the `with` block exits — whether
the body finished with a value or with an exception — the factory's teardown
phase has been resumed and the instance name is absent from the value
registry, so a plain lookup of the name fails. -/
theorem scopedExit_teardown_removal {α V β ε : Type} (c : CtxInstance α V)
    (reg : Registry V) (body : V → Registry V → Except ε β × Registry V) :
    ((withCtx c reg body).2.1).teardownResumed = true ∧
    (withCtx c reg body).2.2 c.name = none ∧
    plainLookup (withCtx c reg body).2.2 c.name = .error (.keyErr c.name) := by
  refine ⟨?_, ?_, ?_⟩ <;>
    simp [withCtx, CtxInstance.enter, CtxInstance.exitScope, CtxInstance.teardownResumed,
      Gen.finish, update, plainLookup]

/-- C4: starting a name that is already live raises `AlreadyStarted`, and
stopping a name with no recorded pending generator raises `NotStarted`; in
both cases the value registry and the manager's generator table are returned
unchanged. -/
theorem start_stop_errors {α V : Type} (m : MgrState α V) (args : α)
    (nameOvS nameOvT : Option String) (reg : Registry V)
    (hlive : (reg (nameOvS.getD m.resourceId)).isSome = true)
    (hnogen : m.generators (stopCoalesce m.resourceId nameOvT) = none) :
    m.start args nameOvS reg =
      (.error (.alreadyStarted (nameOvS.getD m.resourceId)), m, reg) ∧
    m.stop nameOvT reg =
      (.error (.notStarted (stopCoalesce m.resourceId nameOvT)), m, reg) := by
  constructor
  · simp [MgrState.start, hlive]
  · simp [MgrState.stop, hnogen]

/-- Witness for C4: `user` is live in the registry but has no recorded
generator, so `start` and `stop` with the default name fail as stated. -/
theorem start_stop_errors_witness :
    mW.start 0 none (update (fun _ => none) "user" (some 1)) =
      (.error (.alreadyStarted "user"), mW, update (fun _ => none) "user" (some 1)) ∧
    mW.stop none (update (fun _ => none) "user" (some 1)) =
      (.error (.notStarted "user"), mW, update (fun _ => none) "user" (some 1)) :=
  start_stop_errors mW 0 none none (update (fun _ => none) "user" (some 1)) rfl rfl

/-- C3 counterexample: a decorated call whose wrapped callable raises leaves
the teardown unresumed and the instance value still registered under `user`,
because the wrapper has no `try`/`finally` around the wrapped call.  This
refutes the claim that teardown runs and the name is removed in the raising
case. -/
theorem decorator_raise_counterexample :
    (decoratedCall cW
      (fun _ _ r => ((Except.error "boom" : Except String Nat), r)) () (fun _ => none)).2.1
      = false ∧
    (decoratedCall cW
      (fun _ _ r => ((Except.error "boom" : Except String Nat), r)) () (fun _ => none)).2.2
      "user" = some 7 :=
  ⟨rfl, rfl⟩

/-- C3 amended: every invocation of the decorated callable calls the wrapped
callable exactly once with the freshly produced resource as its first
argument (and with the resource registered); when the wrapped callable
returns normally, the teardown is resumed and the name removed from the
value registry afterwards, but when it raises, the exception propagates with
the teardown not resumed and the name still registered. -/
theorem decorator_bracket_behavior {α V β γ ε : Type} (c : CtxInstance α V)
    (callable : V → γ → Registry V → Except ε β × Registry V) (args : γ)
    (reg : Registry V) (res : Except ε β × Registry V)
    (hcall : callable (c.maker c.args) args
      (update reg c.name (some (c.maker c.args))) = res) :
    decoratedCall c callable args reg =
      (res.1, exOk res.1,
       if exOk res.1 then update res.2 c.name none else res.2) := by
  rcases hres : callable (c.maker c.args) args (update reg c.name (some (c.maker c.args)))
    with ⟨r, reg2⟩
  rw [hres] at hcall
  subst hcall
  cases r <;> simp [decoratedCall, hres, exOk]

/-- Witness for C3 amended: one normally-returning wrapped callable (which
receives the produced value 7 as its first argument and returns it) and one
raising wrapped callable, both at the concrete instance `cW`. -/
theorem decorator_bracket_behavior_witness :
    decoratedCall cW (fun v _ r => ((Except.ok v : Except String Nat), r)) ()
        (fun _ => none) =
      (Except.ok 7, true, update (update (fun _ => none) "user" (some 7)) "user" none) ∧
    decoratedCall cW (fun _ _ r => ((Except.error "boom" : Except String Nat), r)) ()
        (fun _ => none) =
      (Except.error "boom", false, update (fun _ => none) "user" (some 7)) :=
  ⟨decorator_bracket_behavior cW _ () (fun _ => none)
      (Except.ok 7, update (fun _ => none) "user" (some 7)) rfl,
   decorator_bracket_behavior cW _ () (fun _ => none)
      (Except.error "boom", update (fun _ => none) "user" (some 7)) rfl⟩

/-- C5 counterexample: with `user` live (value 1), a scoped entry for the
same name is not rejected with an error — it succeeds, producing 2 and
replacing the registry entry, so a live name transitions again instead of
being rejected. -/
theorem scopedEntry_no_rejection_counterexample :
    (update (fun _ => none) "user" (some (1 : Nat))) "user" = some 1 ∧
    ((mkCtxInstance ⟨"user", fun _ : Unit => (2 : Nat)⟩ () none).enter
      (update (fun _ => none) "user" (some 1))).2.1 = 2 ∧
    ((mkCtxInstance ⟨"user", fun _ : Unit => (2 : Nat)⟩ () none).enter
      (update (fun _ => none) "user" (some 1))).2.2 "user" = some 2 :=
  ⟨rfl, rfl, rfl⟩

/-- C5 amended: `start` on a live name is rejected with `AlreadyStarted`
without transitioning, and stop/scoped-exit take a name to Idle; but a
scoped entry always transitions its name to Running with the freshly
produced value, replacing any live value rather than being rejected (entry
performs no liveness check). -/
theorem transitions_amended {α V : Type} (m : MgrState α V) (args : α)
    (nameOv : Option String) (reg : Registry V) (c : CtxInstance α V)
    (reg2 reg3 : Registry V)
    (hlive : (reg (nameOv.getD m.resourceId)).isSome = true) :
    m.start args nameOv reg =
      (.error (.alreadyStarted (nameOv.getD m.resourceId)), m, reg) ∧
    (c.enter reg2).2.2 c.name = some (c.maker c.args) ∧
    (c.exitScope reg3).2 c.name = none := by
  refine ⟨?_, ?_, ?_⟩
  · simp [MgrState.start, hlive]
  · simp [CtxInstance.enter, update]
  · simp [CtxInstance.exitScope, update]

/-- Witness for C5 amended: concrete manager `mW` with `user` live, and the
concrete instance `cW` entering and exiting over arbitrary concrete
registries. -/
theorem transitions_amended_witness :
    mW.start 0 none (update (fun _ => none) "user" (some 1)) =
      (.error (.alreadyStarted "user"), mW, update (fun _ => none) "user" (some 1)) ∧
    (cW.enter (fun _ => none)).2.2 "user" = some 7 ∧
    (cW.exitScope (fun _ => none)).2 "user" = none :=
  transitions_amended mW 0 none (update (fun _ => none) "user" (some 1)) cW
    (fun _ => none) (fun _ => none) rfl

/-- The state returned by a successful `_get_manager` has the returned
manager cached under its resource id. -/
theorem getManager_ok_cached {α V : Type} {s : RCMState α V} {rid : String}
    {m : MgrState α V} {s' : RCMState α V}
    (h : s.getManager rid = (.ok m, s')) : s'.managers rid = some m := by
  unfold RCMState.getManager at h
  cases hm : s.managers rid with
  | some m0 =>
    rw [hm] at h
    simp only [Prod.mk.injEq, Except.ok.injEq] at h
    obtain ⟨h1, h2⟩ := h
    subst h1; subst h2
    exact hm
  | none =>
    rw [hm] at h
    by_cases hact : s.isActive rid
    · rw [if_pos hact] at h
      cases hmk : s.makers rid with
      | some e =>
        rw [hmk] at h
        simp only [Prod.mk.injEq, Except.ok.injEq] at h
        obtain ⟨h1, h2⟩ := h
        subst h1; subst h2
        simp [update]
      | none =>
        rw [hmk] at h
        simp at h
    · rw [if_neg hact] at h
      simp at h

/-- C7: retrieving the `_mgr` singleton is idempotent — after a successful
retrieval yielding manager `m` and state `s'`, retrieving again from `s'`
returns the same manager `m` and leaves the state unchanged. -/
theorem manager_singleton_idempotent {α V : Type} (s : RCMState α V) (rid : String)
    (m : MgrState α V) (s' : RCMState α V)
    (h : s.getManager rid = (.ok m, s')) :
    s'.getManager rid = (.ok m, s') := by
  have hc := getManager_ok_cached h
  unfold RCMState.getManager
  rw [hc]

/-- Witness for C7 at the concrete state `sW` and resource `user`. -/
theorem manager_singleton_idempotent_witness :
    ((sW.getManager "user").2).getManager "user" = (.ok mgrW, (sW.getManager "user").2) :=
  manager_singleton_idempotent sW "user" mgrW ((sW.getManager "user").2) rfl

/-- C6 counterexample: after module `m` is unregistered, `user` is no longer
active, yet the `user_mgr` attribute access still succeeds and returns the
manager singleton cached before deactivation — it does not fail with
`UnknownResource` as the claim requires. -/
theorem deactivated_mgr_counterexample :
    sDeact.isActive "user" = false ∧
    (sDeact.getattr "user_mgr").1 = .ok (.mgrAccessor mgrW) :=
  ⟨rfl, rfl⟩

/-- C6 amended: after its module is deactivated, a maker id's `_ctx`
construction fails with `UnknownResource`, and its `_mgr` retrieval fails
with `UnknownResource` unless a manager singleton was cached before the
deactivation, in which case the cached manager is still returned; the value
registry, and hence every plain-name lookup of a live instance, is
unaffected by the deactivation. -/
theorem deactivation_amended {α V : Type} (s : RCMState α V) (mod rid : String)
    (e : MakerEntry α V) (hm : s.makers rid = some e) (hmod : e.module = mod) :
    (s.unregisterMod mod).getCtx rid = .error (.unknownResource rid) ∧
    ((s.unregisterMod mod).managers rid = none →
      (s.unregisterMod mod).getManager rid =
        (.error (.unknownResource rid), s.unregisterMod mod)) ∧
    (∀ m, (s.unregisterMod mod).managers rid = some m →
      (s.unregisterMod mod).getManager rid = (.ok m, s.unregisterMod mod)) ∧
    (∀ n, (s.unregisterMod mod).registry n = s.registry n) := by
  have hact : (s.unregisterMod mod).isActive rid = false := by
    simp [RCMState.unregisterMod, RCMState.isActive, hm, setMod, hmod]
  refine ⟨?_, ?_, ?_, fun n => rfl⟩
  · simp [RCMState.getCtx, hact]
  · intro hnone
    unfold RCMState.getManager
    rw [hnone, hact]
    simp
  · intro m hsome
    unfold RCMState.getManager
    rw [hsome]

/-- Witness for C6 amended: at `sW` the `_ctx` and (uncached) `_mgr`
retrievals fail after deactivating `m`, while at the cached state the
`_mgr` retrieval still returns the singleton; the registry is untouched. -/
theorem deactivation_amended_witness :
    (sW.unregisterMod "m").getCtx "user" = .error (.unknownResource "user") ∧
    (sW.unregisterMod "m").getManager "user" =
      (.error (.unknownResource "user"), sW.unregisterMod "m") ∧
    sDeact.getManager "user" = (.ok mgrW, sDeact) ∧
    (sW.unregisterMod "m").registry "user" = sW.registry "user" :=
  ⟨(deactivation_amended sW "m" "user" succEntry rfl rfl).1,
   (deactivation_amended sW "m" "user" succEntry rfl rfl).2.1 rfl,
   (deactivation_amended ((sW.getManager "user").2) "m" "user" succEntry rfl rfl).2.2.1
     mgrW rfl,
   (deactivation_amended sW "m" "user" succEntry rfl rfl).2.2.2 "user"⟩

/-- C8: for one maker, two distinct instance names can be started and are
then simultaneously live with their respective values and pending
generators; stopping the first removes only its value and generator,
leaving the second name's registry entry and generator untouched. -/
theorem two_names_independent {α V : Type} (m : MgrState α V) (args1 args2 : α)
    (n1 n2 : String) (reg : Registry V)
    (hne : n1 ≠ n2) (hn1 : n1 ≠ "") (h1 : reg n1 = none) (h2 : reg n2 = none) :
    (m.start args1 (some n1) reg).1 = .ok (m.maker args1) ∧
    (((m.start args1 (some n1) reg).2.1).start args2 (some n2)
        ((m.start args1 (some n1) reg).2.2)).1 = .ok (m.maker args2) ∧
    (((m.start args1 (some n1) reg).2.1).start args2 (some n2)
        ((m.start args1 (some n1) reg).2.2)).2.2 n1 = some (m.maker args1) ∧
    (((m.start args1 (some n1) reg).2.1).start args2 (some n2)
        ((m.start args1 (some n1) reg).2.2)).2.2 n2 = some (m.maker args2) ∧
    ((((m.start args1 (some n1) reg).2.1).start args2 (some n2)
        ((m.start args1 (some n1) reg).2.2)).2.1.stop (some n1)
        (((m.start args1 (some n1) reg).2.1).start args2 (some n2)
          ((m.start args1 (some n1) reg).2.2)).2.2).1 = .ok () ∧
    ((((m.start args1 (some n1) reg).2.1).start args2 (some n2)
        ((m.start args1 (some n1) reg).2.2)).2.1.stop (some n1)
        (((m.start args1 (some n1) reg).2.1).start args2 (some n2)
          ((m.start args1 (some n1) reg).2.2)).2.2).2.2 n1 = none ∧
    ((((m.start args1 (some n1) reg).2.1).start args2 (some n2)
        ((m.start args1 (some n1) reg).2.2)).2.1.stop (some n1)
        (((m.start args1 (some n1) reg).2.1).start args2 (some n2)
          ((m.start args1 (some n1) reg).2.2)).2.2).2.1.generators n1 = none ∧
    ((((m.start args1 (some n1) reg).2.1).start args2 (some n2)
        ((m.start args1 (some n1) reg).2.2)).2.1.stop (some n1)
        (((m.start args1 (some n1) reg).2.1).start args2 (some n2)
          ((m.start args1 (some n1) reg).2.2)).2.2).2.2 n2 = some (m.maker args2) ∧
    ((((m.start args1 (some n1) reg).2.1).start args2 (some n2)
        ((m.start args1 (some n1) reg).2.2)).2.1.stop (some n1)
        (((m.start args1 (some n1) reg).2.1).start args2 (some n2)
          ((m.start args1 (some n1) reg).2.2)).2.2).2.1.generators n2 =
      some ⟨m.maker args2, false⟩ := by
  have hne' : ¬(n2 = n1) := fun h => hne h.symm
  refine ⟨?_, ?_, ?_, ?_, ?_, ?_, ?_, ?_, ?_⟩ <;>
    simp [MgrState.start, MgrState.stop, stopCoalesce, update, h1, h2, hne, hne', hn1]

/-- Witness for C8 with names `mary` and `john` on the concrete manager `mW`. -/
theorem two_names_independent_witness :
    (mW.start 1 (some "mary") (fun _ => none)).1 = .ok 2 ∧
    (((mW.start 1 (some "mary") (fun _ => none)).2.1).start 2 (some "john")
        ((mW.start 1 (some "mary") (fun _ => none)).2.2)).1 = .ok 3 ∧
    (((mW.start 1 (some "mary") (fun _ => none)).2.1).start 2 (some "john")
        ((mW.start 1 (some "mary") (fun _ => none)).2.2)).2.2 "mary" = some 2 ∧
    (((mW.start 1 (some "mary") (fun _ => none)).2.1).start 2 (some "john")
        ((mW.start 1 (some "mary") (fun _ => none)).2.2)).2.2 "john" = some 3 ∧
    ((((mW.start 1 (some "mary") (fun _ => none)).2.1).start 2 (some "john")
        ((mW.start 1 (some "mary") (fun _ => none)).2.2)).2.1.stop (some "mary")
        (((mW.start 1 (some "mary") (fun _ => none)).2.1).start 2 (some "john")
          ((mW.start 1 (some "mary") (fun _ => none)).2.2)).2.2).1 = .ok () ∧
    ((((mW.start 1 (some "mary") (fun _ => none)).2.1).start 2 (some "john")
        ((mW.start 1 (some "mary") (fun _ => none)).2.2)).2.1.stop (some "mary")
        (((mW.start 1 (some "mary") (fun _ => none)).2.1).start 2 (some "john")
          ((mW.start 1 (some "mary") (fun _ => none)).2.2)).2.2).2.2 "mary" = none ∧
    ((((mW.start 1 (some "mary") (fun _ => none)).2.1).start 2 (some "john")
        ((mW.start 1 (some "mary") (fun _ => none)).2.2)).2.1.stop (some "mary")
        (((mW.start 1 (some "mary") (fun _ => none)).2.1).start 2 (some "john")
          ((mW.start 1 (some "mary") (fun _ => none)).2.2)).2.2).2.1.generators "mary"
      = none ∧
    ((((mW.start 1 (some "mary") (fun _ => none)).2.1).start 2 (some "john")
        ((mW.start 1 (some "mary") (fun _ => none)).2.2)).2.1.stop (some "mary")
        (((mW.start 1 (some "mary") (fun _ => none)).2.1).start 2 (some "john")
          ((mW.start 1 (some "mary") (fun _ => none)).2.2)).2.2).2.2 "john" = some 3 ∧
    ((((mW.start 1 (some "mary") (fun _ => none)).2.1).start 2 (some "john")
        ((mW.start 1 (some "mary") (fun _ => none)).2.2)).2.1.stop (some "mary")
        (((mW.start 1 (some "mary") (fun _ => none)).2.1).start 2 (some "john")
          ((mW.start 1 (some "mary") (fun _ => none)).2.2)).2.2).2.1.generators "john"
      = some ⟨3, false⟩ :=
  two_names_independent mW 1 2 "mary" "john" (fun _ => none)
    (by decide) (by decide) rfl rfl

/-- C9: index/key-style lookup on the facade leaves the same state and
returns the same result as attribute-style lookup — identical on success,
and on failure it carries the same underlying cause, differing only in the
error-signaling convention (`KeyError` versus `AttributeError`). -/
theorem getitem_getattr_equiv {α V : Type} (s : RCMState α V) (item : String) :
    (s.getitem item).2 = (s.getattr item).2 ∧
    mapFail ItemFail.cause (s.getitem item).1 =
      mapFail AttrFail.cause (s.getattr item).1 := by
  unfold RCMState.getitem
  rcases hres : s.getattr item with ⟨r, s2⟩
  rcases r with a | ⟨c⟩
  all_goals exact ⟨rfl, rfl⟩

/-- C10: `start` with an explicit empty-string name override records the
instance under the empty-string name, while `stop` coalesces both an
empty-string and an absent name override to the maker id; hence starting
with `_name=''` and then stopping with `_name=''` (or no name) raises
`NotStarted` for the maker id and leaves the empty-named instance live. -/
theorem empty_name_start_stop {α V : Type} (m : MgrState α V) (args : α)
    (reg : Registry V) (hid : m.resourceId ≠ "") (hfree : reg "" = none)
    (hnogen : m.generators m.resourceId = none) :
    (m.start args (some "") reg).1 = .ok (m.maker args) ∧
    (m.start args (some "") reg).2.2 "" = some (m.maker args) ∧
    (m.start args (some "") reg).2.1.generators "" = some ⟨m.maker args, false⟩ ∧
    stopCoalesce m.resourceId (some "") = m.resourceId ∧
    stopCoalesce m.resourceId none = m.resourceId ∧
    (m.start args (some "") reg).2.1.stop (some "") ((m.start args (some "") reg).2.2) =
      (.error (.notStarted m.resourceId), (m.start args (some "") reg).2.1,
       (m.start args (some "") reg).2.2) ∧
    (m.start args (some "") reg).2.1.stop none ((m.start args (some "") reg).2.2) =
      (.error (.notStarted m.resourceId), (m.start args (some "") reg).2.1,
       (m.start args (some "") reg).2.2) := by
  refine ⟨?_, ?_, ?_, ?_, ?_, ?_, ?_⟩ <;>
    simp [MgrState.start, MgrState.stop, stopCoalesce, update, hfree, hnogen, hid]

/-- Witness for C10 on the concrete manager `mW` with an empty registry. -/
theorem empty_name_start_stop_witness :
    (mW.start 0 (some "") (fun _ => none)).1 = .ok 1 ∧
    (mW.start 0 (some "") (fun _ => none)).2.2 "" = some 1 ∧
    (mW.start 0 (some "") (fun _ => none)).2.1.generators "" = some ⟨1, false⟩ ∧
    stopCoalesce "user" (some "") = "user" ∧
    stopCoalesce "user" none = "user" ∧
    (mW.start 0 (some "") (fun _ => none)).2.1.stop (some "")
        ((mW.start 0 (some "") (fun _ => none)).2.2) =
      (.error (.notStarted "user"), (mW.start 0 (some "") (fun _ => none)).2.1,
       (mW.start 0 (some "") (fun _ => none)).2.2) ∧
    (mW.start 0 (some "") (fun _ => none)).2.1.stop none
        ((mW.start 0 (some "") (fun _ => none)).2.2) =
      (.error (.notStarted "user"), (mW.start 0 (some "") (fun _ => none)).2.1,
       (mW.start 0 (some "") (fun _ => none)).2.2) :=
  empty_name_start_stop mW 0 (fun _ => none) (by decide) rfl rfl

end Resources
